import Mathlib

/-!
Verification development for the `reticulatus` benchmark module
(`src/benchmark.py`): a periodic resource sampler that aggregates
memory / IO / CPU / GPU metrics of a process tree into a mutable
`BenchmarkRecord`, driven by a self-rescheduling timer
(`ScheduledPeriodicTimer` / `BenchmarkTimer`), wrapped by the
`benchmarked` context manager, and serialized by
`BenchmarkRecord.to_tsv` / `get_header`.

Shallow embedding conventions:
* Python floats and wall-clock times are modelled as `ℚ`; provider
  outputs (psutil values, GPUtil values, `time.time()` readings) are
  inputs of the model, supplied per tick by a `TickObs`.
* `None`-able Python attributes are `Option ℚ` (or `Option (List ℚ)`
  for the per-GPU lists); Python truthiness of such values is
  `pyTruthy` and Python's `x or 0` is `orZero` / `numOrZero`.
* Exceptions are modelled by the observed control flow of the source:
  inside `_update_record` the whole process loop is guarded by
  `try ... except psutil.Error: return`, so any `psutil` error during
  enumeration or during a per-process query abandons the tick; this is
  a total function on the tick observation (see `updateRecord`).
* Fallible serialization (`ZeroDivisionError` in `to_tsv` when
  `running_time = 0`) returns `Option String`.
-/

set_option autoImplicit false

namespace Reticulatus

/-- Python truthiness of an optional numeric attribute:
`None` and `0` are falsy, any other number is truthy
(used for `if self.bench_record.prev_time:` and
`if not self.bench_record.first_time:`). -/
def pyTruthy : Option ℚ → Bool
  | none => false
  | some x => if x = 0 then false else true

/-- Python `x or 0` where `x` is `None` or a number
(used for `running_time or 0`, `cpu_seconds or 0`,
`max(self.bench_record.max_rss or 0, rss)`, ...). -/
def orZero : Option ℚ → ℚ
  | none => 0
  | some x => if x = 0 then 0 else x

/-- Python `x or 0` for a plain number (used for the GPU list entries
`self.bench_record.max_gpu_load[gpu_i] or 0`). -/
def numOrZero (x : ℚ) : ℚ := if x = 0 then 0 else x

/-- `BenchmarkRecord`: record type for benchmark times
(`src/benchmark.py`, class `BenchmarkRecord`). Field names and
nullability follow `__init__` (lines 48-95). -/
structure BenchmarkRecord where
  /-- Running time in seconds -/
  running_time : ℚ
  /-- Maximal RSS in MB -/
  max_rss : Option ℚ
  rss : Option ℚ
  /-- Maximal VMS in MB -/
  max_vms : Option ℚ
  vms : Option ℚ
  /-- Maximal USS in MB -/
  max_uss : Option ℚ
  uss : Option ℚ
  /-- Maximal PSS in MB -/
  max_pss : Option ℚ
  pss : Option ℚ
  /-- I/O read in MB (`None` when unsupported) -/
  io_in : Option ℚ
  /-- I/O written in MB (`None` when unsupported) -/
  io_out : Option ℚ
  /-- Count of CPU seconds -/
  cpu_seconds : ℚ
  /-- Never assigned anywhere in the module; stays `None` -/
  first_time : Option ℚ
  /-- Previous time point at which CPU load was measured -/
  prev_time : Option ℚ
  max_gpu_load : Option (List ℚ)
  gpu_load : Option (List ℚ)
  max_gpu_mem : Option (List ℚ)
  gpu_mem : Option (List ℚ)
  deriving DecidableEq

/-- `BenchmarkRecord.__init__` with all sixteen parameters explicit
(every parameter defaults to `None` in the source; `running_time or 0`
and `cpu_seconds or 0` coerce `None` to `0`; `first_time` and
`prev_time` are initialized to `None`). Parameter order follows the
source signature. -/
def BenchmarkRecord.init
    (running_time max_rss max_vms max_uss max_pss io_in io_out cpu_seconds : Option ℚ)
    (max_gpu_load max_gpu_mem : Option (List ℚ))
    (rss vms uss pss : Option ℚ)
    (gpu_load gpu_mem : Option (List ℚ)) : BenchmarkRecord :=
  { running_time := orZero running_time
    max_rss := max_rss
    rss := rss
    max_vms := max_vms
    vms := vms
    max_uss := max_uss
    uss := uss
    max_pss := max_pss
    pss := pss
    io_in := io_in
    io_out := io_out
    cpu_seconds := orZero cpu_seconds
    first_time := none
    prev_time := none
    max_gpu_load := max_gpu_load
    gpu_load := gpu_load
    max_gpu_mem := max_gpu_mem
    gpu_mem := gpu_mem }

/-- `BenchmarkRecord()` with no arguments: the freshly constructed
record (all defaults). -/
def freshRecord : BenchmarkRecord :=
  BenchmarkRecord.init none none none none none none none none none none
    none none none none none none

/-- `BenchmarkRecord.get_header` (lines 30-46). -/
def BenchmarkRecord.get_header : String :=
  String.intercalate "\t"
    [ "s", "h:m:s", "max_rss", "max_vms", "max_uss", "max_pss",
      "io_in", "io_out", "mean_load", "max_gpu_load", "max_gpu_mem" ]

/-! ## Serialization (`to_tsv`, lines 97-161) -/

/-- Floor of a rational, computed from the normalized representation
(`den > 0`, so flooring division of `num` by `den`). -/
def qfloor (x : ℚ) : ℤ := x.num.fdiv x.den

/-- Round a rational to the nearest integer, ties to even — the
rounding used by Python both for `"%.nf"` float formatting and for
`datetime.timedelta`'s normalization to whole microseconds. -/
def roundHalfEven (x : ℚ) : ℤ :=
  let f := qfloor x
  let frac := x - f
  if frac < 1 / 2 then f
  else if 1 / 2 < frac then f + 1
  else if f % 2 = 0 then f else f + 1

/-- Left-pad a digit string with zeros to width `w` (the `%02d` and
fractional-part padding of fixed-point formatting). -/
def padZeros (w : Nat) (s : String) : String :=
  if s.length < w then String.mk (List.replicate (w - s.length) '0') ++ s else s

/-- Python `"\x7b:.«prec»f\x7d".format(x)`: fixed-point decimal
formatting with `prec` digits after the point, round-half-even. -/
def formatFixed (prec : Nat) (x : ℚ) : String :=
  let p : Nat := 10 ^ prec
  let scaled := roundHalfEven (x * (p : ℚ))
  let sign := if scaled < 0 then "-" else ""
  let n := scaled.natAbs
  if prec = 0 then sign ++ toString (n / p)
  else sign ++ toString (n / p) ++ "." ++ padZeros prec (toString (n % p))

/-- The runtime type dispatch performed by the inner helper
`to_tsv_str`: a cell is `None`, a float, a list of floats, or an
already-formatted string. -/
inductive TsvValue where
  | vnone
  | vfloat (x : ℚ)
  | vlist (xs : List ℚ)
  | vstr (s : String)
  deriving DecidableEq

/-- `to_tsv_str` (lines 100-109): `None` becomes `"-"`, floats are
formatted `"\x7b:.2f\x7d"`, lists are comma-joined two-decimal
numbers, anything else is `str(x)`. -/
def to_tsv_str : TsvValue → String
  | TsvValue.vnone => "-"
  | TsvValue.vfloat x => formatFixed 2 x
  | TsvValue.vlist xs => String.intercalate "," (xs.map (formatFixed 2))
  | TsvValue.vstr s => s

/-- `datetime.timedelta` normalized to days / seconds / microseconds,
with `0 ≤ seconds < 86400` (Python floor-divides, so `days` may be
negative while `seconds` is canonical). -/
structure Timedelta where
  days : ℤ
  seconds : Nat
  microseconds : Nat
  deriving DecidableEq

/-- `datetime.timedelta(seconds=x)`: round to whole microseconds
(ties to even), then floor-normalize into days and in-day seconds. -/
def timedeltaOfSeconds (x : ℚ) : Timedelta :=
  let us := roundHalfEven (x * 1000000)
  let dayUs : ℤ := 86400 * 1000000
  let rem := (us.fmod dayUs).toNat
  { days := us.fdiv dayUs
    seconds := rem / 1000000
    microseconds := rem % 1000000 }

/-- `%02d`. -/
def pad2 (n : Nat) : String := padZeros 2 (toString n)

/-- `timedelta_to_str` (lines 111-122): `"%d:%02d:%02d"` from
`divmod(x.seconds, 60)` twice, prefixed with `"%d day(s), "` when
`x.days` is nonzero (with the `plural` helper's `abs(n) != 1` rule). -/
def timedelta_to_str (x : Timedelta) : String :=
  let mm := x.seconds / 60
  let ss := x.seconds % 60
  let hh := mm / 60
  let mm2 := mm % 60
  let base := toString hh ++ ":" ++ pad2 mm2 ++ ":" ++ pad2 ss
  if x.days = 0 then base
  else toString x.days ++ " day" ++ (if x.days.natAbs = 1 then "" else "s") ++ ", " ++ base

/-- Cell for an optional float attribute. -/
def optCell : Option ℚ → TsvValue
  | none => TsvValue.vnone
  | some v => TsvValue.vfloat v

/-- Cell for an optional per-GPU list attribute. -/
def optListCell : Option (List ℚ) → TsvValue
  | none => TsvValue.vnone
  | some l => TsvValue.vlist l

/-- `BenchmarkRecord.to_tsv(rt)` (lines 97-161). The Python code
builds the whole column tuple before joining, and the `mean_load`
column is `100.0 * self.cpu_seconds / self.running_time` with no
guard: when `running_time = 0` the tuple construction raises
`ZeroDivisionError`, modelled as `none`. In `rt` mode the
instantaneous fields are emitted, otherwise the running maxima; the
first column is the running time at four decimal places (formatted
before `to_tsv_str` sees it, hence a `vstr`), the second the
human-readable timedelta. -/
def BenchmarkRecord.to_tsv (self : BenchmarkRecord) (rt : Bool) : Option String :=
  if self.running_time = 0 then none
  else
    let meanLoad := 100 * self.cpu_seconds / self.running_time
    let cols : List TsvValue :=
      if rt then
        [ TsvValue.vstr (formatFixed 4 self.running_time),
          TsvValue.vstr (timedelta_to_str (timedeltaOfSeconds self.running_time)),
          optCell self.rss,
          optCell self.vms,
          optCell self.uss,
          optCell self.pss,
          optCell self.io_in,
          optCell self.io_out,
          TsvValue.vfloat meanLoad,
          optListCell self.gpu_load,
          optListCell self.gpu_mem ]
      else
        [ TsvValue.vstr (formatFixed 4 self.running_time),
          TsvValue.vstr (timedelta_to_str (timedeltaOfSeconds self.running_time)),
          optCell self.max_rss,
          optCell self.max_vms,
          optCell self.max_uss,
          optCell self.max_pss,
          optCell self.io_in,
          optCell self.io_out,
          TsvValue.vfloat meanLoad,
          optListCell self.max_gpu_load,
          optListCell self.max_gpu_mem ]
    some (String.intercalate "\t" (cols.map to_tsv_str))

/-- `print_benchmark_records` (lines 380-385), modelled as the list of
emitted lines: the header (mode-independent `get_header`) when `head`
is set, then one `to_tsv(rt)` line per record; `none` if any record's
serialization raises. -/
def print_benchmark_records (records : List BenchmarkRecord) (head : Bool) (rt : Bool) :
    Option (List String) :=
  let hdr := if head then [BenchmarkRecord.get_header] else []
  (records.mapM (fun (r : BenchmarkRecord) => r.to_tsv rt)).map (fun ls => hdr ++ ls)

/-! ## Adaptive scheduler (`ScheduledPeriodicTimer`, lines 186-231) -/

/-- `BENCHMARK_INTERVAL` (line 21). -/
def BENCHMARK_INTERVAL : ℚ := 30

/-- `BENCHMARK_INTERVAL_SHORT` (line 24). -/
def BENCHMARK_INTERVAL_SHORT : ℚ := 1 / 2

/-- The mutable state of a `ScheduledPeriodicTimer` (lines 193-200):
`_times_called`, `_interval`, `_stopped`, the pending `DaemonTimer`'s
delay (`none` when `_timer is None`), and `start_time`. The `_gpu` and
`_rtpath` attributes belong to the `BenchmarkTimer` subclass's
concerns and are modelled with the aggregator. -/
structure SchedState where
  times_called : Nat
  interval : ℚ
  stopped : Bool
  pendingDelay : Option ℚ
  start_time : Option ℚ
  deriving DecidableEq

/-- `ScheduledPeriodicTimer.__init__(interval)`. -/
def initSched (interval : ℚ) : SchedState :=
  { times_called := 0, interval := interval, stopped := true,
    pendingDelay := none, start_time := none }

/-- Externally visible effects of `start` / `_action`, in program
order: the synchronous `self.work()` call, and the creation + start of
the next `DaemonTimer` with its delay. -/
inductive SchedEvent where
  | workCalled
  | timerScheduled (delay : ℚ)
  deriving DecidableEq

/-- The cadence rule shared by `start` and `_action` (lines 208-211 and
218-221), evaluated after `_times_called` has been incremented:
`self._interval` as the delay when `self._times_called >
self._interval` (an `int`-vs-seconds comparison, the parameter doing
double duty as ramp-up threshold), else `BENCHMARK_INTERVAL_SHORT`. -/
def chooseDelay (times_called : Nat) (interval : ℚ) : ℚ :=
  if (times_called : ℚ) > interval then interval else BENCHMARK_INTERVAL_SHORT

/-- `ScheduledPeriodicTimer.start` (lines 202-212): records
`start_time`, calls `work()` synchronously, increments
`_times_called`, clears `_stopped`, and creates and starts the next
`DaemonTimer` by the cadence rule. There is no already-started check
anywhere in the method; it behaves the same on any state. -/
def SchedState.start (s : SchedState) (now : ℚ) : SchedState × List SchedEvent :=
  let d := chooseDelay (s.times_called + 1) s.interval
  ({ s with start_time := some now, times_called := s.times_called + 1,
            stopped := false, pendingDelay := some d },
   [SchedEvent.workCalled, SchedEvent.timerScheduled d])

/-- `ScheduledPeriodicTimer._action` (lines 214-222): one timer
firing — `work()`, increment `_times_called`, re-arm by the cadence
rule (`_stopped` and `start_time` untouched). -/
def SchedState.action (s : SchedState) : SchedState × List SchedEvent :=
  let d := chooseDelay (s.times_called + 1) s.interval
  ({ s with times_called := s.times_called + 1, pendingDelay := some d },
   [SchedEvent.workCalled, SchedEvent.timerScheduled d])

/-! ## Metrics aggregator (`BenchmarkTimer`, lines 234-348)

One tick of `_update_record` consumes, from the outside world: the
`time.time()` reading, the outcome of enumerating and querying each
process of the tree, and (when GPU monitoring is on) per-GPU readings.
These are bundled in a `TickObs`. The process-handle cache
(`self.procs`, which only affects which handle answers the
`cpu_percent` rate query) is not modelled separately: the per-process
CPU percent is already an input. -/

/-- The values one `proc.oneshot()` block reads from a live process:
`cpu_percent()`, `memory_full_info()` (bytes), and `io_counters()` —
`none` models `io_counters` raising `NotImplementedError`
("OS doesn't track IO"). -/
structure ProcMetrics where
  cpu_percent : ℚ
  rss : ℚ
  vms : ℚ
  uss : ℚ
  pss : ℚ
  io : Option (ℚ × ℚ)
  deriving DecidableEq

/-- Outcome of querying one enumerated process: it answered
(`alive`), it exited between enumeration and query so the query raises
`psutil.NoSuchProcess` (`gone`), or the query raises some other
`psutil.Error` such as `AccessDenied` (`err`). -/
inductive ProcObs where
  | alive (m : ProcMetrics)
  | gone
  | err
  deriving DecidableEq

/-- Whether the process answered its query. -/
def ProcObs.isAlive : ProcObs → Bool
  | ProcObs.alive _ => true
  | _ => false

/-- One GPU's reading from the GPU provider: `load` as a 0-1 fraction
and `memoryUsed` in MB (`GPUtil.getGPUs()[gpu]`). -/
structure GpuObs where
  load : ℚ
  memoryUsed : ℚ
  deriving DecidableEq

/-- Everything the outside world contributes to one tick:
`this_time = time.time()`; `enumOk = false` models a `psutil.Error`
raised while enumerating `self.main.children(recursive=True)` (or by
`self.main` itself); `procs` are the query outcomes of the enumerated
tree in order; `gpuVals` is `some` readings exactly when `self._gpu`
is set. -/
structure TickObs where
  this_time : ℚ
  enumOk : Bool
  procs : List ProcObs
  gpuVals : Option (List GpuObs)
  deriving DecidableEq

/-- The per-process metrics of a tick's scan when every query
succeeded, `none` as soon as any process raised: in the source any
`psutil.Error` inside the loop is caught by the enclosing
`except psutil.Error: return`, which discards all of the loop's local
accumulators, so only the all-alive case ever reaches the record. -/
def aliveMetrics : List ProcObs → Option (List ProcMetrics)
  | [] => some []
  | ProcObs.alive m :: rest => (aliveMetrics rest).map (fun l => m :: l)
  | ProcObs.gone :: _ => none
  | ProcObs.err :: _ => none

/-- The loop-local accumulators of `_update_record` (lines 274-279):
`cpu_seconds`, the four memory sums (bytes), the two I/O sums (bytes)
and `check_io`, reinitialized at the start of every tick. -/
structure LoopAcc where
  cpu_seconds : ℚ
  rss : ℚ
  vms : ℚ
  uss : ℚ
  pss : ℚ
  io_in : ℚ
  io_out : ℚ
  check_io : Bool
  deriving DecidableEq

/-- The initial accumulator values of a tick (lines 274-279). -/
def initAcc : LoopAcc :=
  { cpu_seconds := 0, rss := 0, vms := 0, uss := 0, pss := 0,
    io_in := 0, io_out := 0, check_io := true }

/-- One iteration of the `for proc in chain(...)` loop body
(lines 289-310) for a process that answered: add the CPU-seconds
contribution when `self.bench_record.prev_time` is truthy, add the
four memory readings, and — only while `check_io` still holds — either
add the I/O readings or, on `NotImplementedError`, clear `check_io`
for the rest of the tick. -/
def procStep (t : ℚ) (prevT : Option ℚ) (acc : LoopAcc) (m : ProcMetrics) : LoopAcc :=
  let acc1 :=
    if pyTruthy prevT then
      { acc with cpu_seconds := acc.cpu_seconds + m.cpu_percent / 100 * (t - orZero prevT) }
    else acc
  let acc2 := { acc1 with rss := acc1.rss + m.rss, vms := acc1.vms + m.vms,
                          uss := acc1.uss + m.uss, pss := acc1.pss + m.pss }
  if acc2.check_io then
    match m.io with
    | some io => { acc2 with io_in := acc2.io_in + io.1, io_out := acc2.io_out + io.2 }
    | none => { acc2 with check_io := false }
  else acc2

/-- Bytes per megabyte, `1024 * 1024` (lines 314-320). -/
def MBconv : ℚ := 1024 * 1024

/-- The GPU maxima loop step (lines 331-332): for each configured GPU
index in order, `max_list[i] = max(max_list[i] or 0, reading)`. When
the readings run out the remaining entries are untouched. (If the
record's list were shorter than the readings Python would raise
`IndexError`; `BenchmarkTimer.__init__` always sizes them equally, and
the model truncates there instead.) -/
def updGpuMax (read : GpuObs → ℚ) : List GpuObs → List ℚ → List ℚ
  | [], old => old
  | _ :: _, [] => []
  | v :: vs, o :: os => max (numOrZero o) (read v) :: updGpuMax read vs os

/-- The GPU instantaneous loop step (lines 333-334): for each
configured GPU index in order, `cur_list[i] = reading`. -/
def updGpuCur (read : GpuObs → ℚ) : List GpuObs → List ℚ → List ℚ
  | [], old => old
  | _ :: _, [] => []
  | v :: vs, _ :: os => read v :: updGpuCur read vs os

/-- The GPU load reading as stored: `GPUtil.getGPUs()[gpu].load*100`. -/
def gpuLoad100 (g : GpuObs) : ℚ := g.load * 100

/-- The GPU memory reading as stored: `.memoryUsed` (MB). -/
def gpuMemUsed (g : GpuObs) : ℚ := g.memoryUsed

/-- The `if self._gpu:` block (lines 327-334), applied to the four GPU
list fields of the record. (`__init__` guarantees the lists are
present and sized to the configured GPUs whenever `_gpu` is set; on
the unreachable unset-list input the model reads an empty list.) -/
def applyGpu (vals : List GpuObs) (r : BenchmarkRecord) : BenchmarkRecord :=
  { r with
    max_gpu_load := some (updGpuMax gpuLoad100 vals (r.max_gpu_load.getD []))
    max_gpu_mem := some (updGpuMax gpuMemUsed vals (r.max_gpu_mem.getD []))
    gpu_load := some (updGpuCur gpuLoad100 vals (r.gpu_load.getD []))
    gpu_mem := some (updGpuCur gpuMemUsed vals (r.gpu_mem.getD [])) }

/-- `BenchmarkTimer._update_record` (lines 271-348), one tick.

Control flow of the source: `running_time` is assigned from
`this_time` *inside* the `try` block but *before* the process loop
(line 288); any `psutil.Error` raised while enumerating children or
querying a process (including `NoSuchProcess` for a process that
exited in flight — a subclass of `psutil.Error`) lands in
`except psutil.Error: return` (line 324), abandoning the tick with all
loop-local sums discarded and only `running_time` already mutated.
Only when every query succeeds are `prev_time`, the unit conversions,
the GPU block, the running maxima, the instantaneous values, the I/O
fields and `cpu_seconds` written. The redundant
`if not first_time: prev_time = this_time` (lines 312-313) re-assigns
the same value, `first_time` being `None` forever. -/
def updateRecord (start_time : ℚ) (r : BenchmarkRecord) (obs : TickObs) : BenchmarkRecord :=
  let r1 := { r with running_time := obs.this_time - start_time }
  match obs.enumOk, aliveMetrics obs.procs with
  | true, some ms =>
    let acc := ms.foldl (procStep obs.this_time r.prev_time) initAcc
    let r2 := { r1 with prev_time := some obs.this_time }
    let r3 := match obs.gpuVals with
      | some vals => applyGpu vals r2
      | none => r2
    { r3 with
      max_rss := some (max (orZero r3.max_rss) (acc.rss / MBconv))
      max_vms := some (max (orZero r3.max_vms) (acc.vms / MBconv))
      max_uss := some (max (orZero r3.max_uss) (acc.uss / MBconv))
      max_pss := some (max (orZero r3.max_pss) (acc.pss / MBconv))
      rss := some (acc.rss / MBconv)
      vms := some (acc.vms / MBconv)
      uss := some (acc.uss / MBconv)
      pss := some (acc.pss / MBconv)
      io_in := if acc.check_io then some (acc.io_in / MBconv) else none
      io_out := if acc.check_io then some (acc.io_out / MBconv) else none
      cpu_seconds := r3.cpu_seconds + acc.cpu_seconds }
  | _, _ => r1

/-- `BenchmarkTimer.work` (lines 259-269) reduces to `_update_record`
for record state: its `except psutil.NoSuchProcess / AttributeError`
handlers swallow exceptions without touching the record (and the
`psutil` ones are already swallowed inside `_update_record`); the
optional real-time append does not mutate the record. A sequence of
ticks is therefore a fold of `updateRecord`. -/
def runTicks (start_time : ℚ) (r : BenchmarkRecord) (ticks : List TickObs) : BenchmarkRecord :=
  ticks.foldl (updateRecord start_time) r

/-- The effect of `BenchmarkTimer.__init__` (lines 247-253) on the
bound record: when the `gpus` argument is truthy (a non-empty list),
the four GPU list fields are pre-sized to `[-1] * len(gpus)`. -/
def benchTimerInit (gpus : List Nat) (r : BenchmarkRecord) : BenchmarkRecord :=
  if gpus.isEmpty then r
  else
    { r with
      max_gpu_load := some (List.replicate gpus.length (-1))
      max_gpu_mem := some (List.replicate gpus.length (-1))
      gpu_load := some (List.replicate gpus.length (-1))
      gpu_mem := some (List.replicate gpus.length (-1)) }

/-! ## Lifecycle wrapper (`benchmarked`, lines 351-377) -/

/-- How the enclosed scope of the `benchmarked` context manager ends:
normal completion, or an exception escaping through the `yield`. -/
inductive BodyOutcome where
  | normal
  | exc
  deriving DecidableEq

/-- `benchmarked` (lines 351-377) as a function of: whether the caller
passed `pid=False` (observation disabled), the wall-clock instants at
entry and at normal exit, the GPU indices, the initial record
(`benchmark_record or BenchmarkRecord()` resolved by the caller), the
ticks the background sampler performs while the scope runs (the first
of which is the synchronous tick of `bench_thread.start()`), and the
scope's outcome. Returns the record together with whether
`bench_thread.cancel()` was reached.

The generator body has no `try/finally`: after `yield result`, the
`cancel()` call and the final `running_time` assignment execute only
when the scope completes normally; an exception thrown into the
generator at the `yield` point skips both. With `pid=False` no
sampler is created and the record is returned unmodified. -/
def benchmarked_model (pidIsFalse : Bool) (start_time end_time : ℚ) (gpus : List Nat)
    (r0 : BenchmarkRecord) (ticks : List TickObs) (outcome : BodyOutcome) :
    BenchmarkRecord × Bool :=
  if pidIsFalse then (r0, false)
  else
    let r1 := runTicks start_time (benchTimerInit gpus r0) ticks
    match outcome with
    | BodyOutcome.normal => ({ r1 with running_time := end_time - start_time }, true)
    | BodyOutcome.exc => (r1, false)

/-! ## Specification-side derived quantities -/

/-- The CPU-seconds amount one tick adds to the record: zero on an
abandoned tick; on a successful scan, zero when `prev_time` is not yet
(truthily) set, else the sum over the scanned processes of
`cpu_percent / 100 * (this_time - prev_time)`. -/
def tickCpuContribution (prevT : Option ℚ) (obs : TickObs) : ℚ :=
  match obs.enumOk, aliveMetrics obs.procs with
  | true, some ms =>
    if pyTruthy prevT then
      (ms.map (fun m => m.cpu_percent / 100 * (obs.this_time - orZero prevT))).sum
    else 0
  | _, _ => 0

/-- The per-tick CPU-seconds contributions along a trace of ticks,
each taken at the record state the tick actually sees. -/
def cpuContribs (start_time : ℚ) (r : BenchmarkRecord) : List TickObs → List ℚ
  | [] => []
  | t :: ts => tickCpuContribution r.prev_time t :: cpuContribs start_time (updateRecord start_time r t) ts

/-- "`max_X ≥ X` whenever both are set" for one scalar metric pair. -/
def pairLE (cur mx : Option ℚ) : Prop :=
  ∀ a b, mx = some a → cur = some b → b ≤ a

/-- "`max_X[i] ≥ X[i]` whenever both lists are set" for one per-GPU
metric pair, positionally. -/
def gpuPairLE (cur mx : Option (List ℚ)) : Prop :=
  ∀ lc lm, cur = some lc → mx = some lm → ∀ p ∈ lc.zip lm, p.1 ≤ p.2

/-- The running-max invariant of a record: every instantaneous metric
is bounded by its running maximum whenever both are set — RSS, VMS,
USS, PSS, and each monitored GPU's load and memory. -/
def maxInvariant (r : BenchmarkRecord) : Prop :=
  pairLE r.rss r.max_rss ∧ pairLE r.vms r.max_vms ∧ pairLE r.uss r.max_uss
    ∧ pairLE r.pss r.max_pss ∧ gpuPairLE r.gpu_load r.max_gpu_load
    ∧ gpuPairLE r.gpu_mem r.max_gpu_mem

/-! ## Ground-evaluation helpers

Core `Rat` arithmetic does not reduce inside the kernel, so concrete
serializer outputs are computed by first showing (with `norm_num`)
that the scaled value is an integer and then evaluating the integer /
string part. -/

theorem qfloor_intCast (n : ℤ) : qfloor (n : ℚ) = n := by
  unfold qfloor
  rw [Rat.num_intCast, Rat.den_intCast]
  exact Int.fdiv_one n

theorem roundHalfEven_intCast (n : ℤ) : roundHalfEven (n : ℚ) = n := by
  unfold roundHalfEven
  rw [qfloor_intCast]
  norm_num

theorem formatFixed_intScaled (prec : Nat) (x : ℚ) (n : ℤ)
    (h : x * ((10 ^ prec : ℕ) : ℚ) = ((n : ℤ) : ℚ)) :
    formatFixed prec x
      = (if n < 0 then "-" else "")
        ++ (if prec = 0 then toString (n.natAbs / 10 ^ prec)
            else toString (n.natAbs / 10 ^ prec) ++ "."
                 ++ padZeros prec (toString (n.natAbs % 10 ^ prec))) := by
  simp only [formatFixed]
  rw [h, roundHalfEven_intCast]
  by_cases hp : prec = 0 <;> simp [hp, String.append_assoc]

theorem timedeltaOfSeconds_intScaled (x : ℚ) (n : ℤ) (h : x * 1000000 = ((n : ℤ) : ℚ)) :
    timedeltaOfSeconds x
      = { days := n.fdiv (86400 * 1000000)
          seconds := (n.fmod (86400 * 1000000)).toNat / 1000000
          microseconds := (n.fmod (86400 * 1000000)).toNat % 1000000 } := by
  simp only [timedeltaOfSeconds]
  rw [h, roundHalfEven_intCast]

/-! ## Claim theorems -/

/-- C9: serialization emits the exact tab-separated header
`s, h:m:s, max_rss, max_vms, max_uss, max_pss, io_in, io_out,
mean_load, max_gpu_load, max_gpu_mem` in both modes; in a data line
the running-time column uses four decimal places while other floating
columns use two (absent scalars render as a dash, per-GPU lists as
comma-joined two-decimal numbers); a record with
`running_time = 12.3456` serializes the running-time column as
`12.3456` and the human-readable column as `0:00:12`. -/
theorem C9_serialization :
    BenchmarkRecord.get_header
      = "s\th:m:s\tmax_rss\tmax_vms\tmax_uss\tmax_pss\tio_in\tio_out\tmean_load\tmax_gpu_load\tmax_gpu_mem"
    ∧ (∀ rt, print_benchmark_records [] true rt = some [BenchmarkRecord.get_header])
    ∧ to_tsv_str TsvValue.vnone = "-"
    ∧ (({ freshRecord with running_time := 123456 / 10000 } : BenchmarkRecord).to_tsv true
        = some "12.3456\t0:00:12\t-\t-\t-\t-\t-\t-\t0.00\t-\t-")
    ∧ (({ freshRecord with running_time := 123456 / 10000 } : BenchmarkRecord).to_tsv false
        = some "12.3456\t0:00:12\t-\t-\t-\t-\t-\t-\t0.00\t-\t-")
    ∧ (({ freshRecord with
            running_time := 2
            cpu_seconds := 1
            max_rss := some (3 / 2)
            max_gpu_load := some [55, -1] } : BenchmarkRecord).to_tsv false
        = some "2.0000\t0:00:02\t1.50\t-\t-\t-\t-\t-\t50.00\t55.00,-1.00\t-") := by
  have h0 : formatFixed 2 (0 : ℚ) = "0.00" := by
    rw [formatFixed_intScaled 2 _ 0 (by norm_num)]
    decide
  have hf4 : formatFixed 4 ((123456 : ℚ) / 10000) = "12.3456" := by
    rw [formatFixed_intScaled 4 _ 123456 (by norm_num)]
    decide
  have ht4 : timedelta_to_str (timedeltaOfSeconds ((123456 : ℚ) / 10000)) = "0:00:12" := by
    rw [timedeltaOfSeconds_intScaled _ 12345600 (by norm_num)]
    decide
  have hm4 : (100 : ℚ) * 0 / (123456 / 10000) = 0 := by norm_num
  have hf2 : formatFixed 4 (2 : ℚ) = "2.0000" := by
    rw [formatFixed_intScaled 4 _ 20000 (by norm_num)]
    decide
  have ht2 : timedelta_to_str (timedeltaOfSeconds (2 : ℚ)) = "0:00:02" := by
    rw [timedeltaOfSeconds_intScaled _ 2000000 (by norm_num)]
    decide
  have hm2 : (100 : ℚ) * 1 / 2 = 50 := by norm_num
  have h50 : formatFixed 2 (50 : ℚ) = "50.00" := by
    rw [formatFixed_intScaled 2 _ 5000 (by norm_num)]
    decide
  have h15 : formatFixed 2 ((3 : ℚ) / 2) = "1.50" := by
    rw [formatFixed_intScaled 2 _ 150 (by norm_num)]
    decide
  have h55 : formatFixed 2 (55 : ℚ) = "55.00" := by
    rw [formatFixed_intScaled 2 _ 5500 (by norm_num)]
    decide
  have hneg1 : formatFixed 2 (-1 : ℚ) = "-1.00" := by
    rw [formatFixed_intScaled 2 _ (-100) (by norm_num)]
    decide
  refine ⟨rfl, fun rt => by cases rt <;> rfl, rfl, ?_, ?_, ?_⟩
  · simp only [BenchmarkRecord.to_tsv, freshRecord, BenchmarkRecord.init, orZero,
      if_neg (by norm_num : ¬((123456 : ℚ) / 10000 = 0)), hm4, hf4, ht4, h0,
      optCell, optListCell, List.map, to_tsv_str]
    rfl
  · simp only [BenchmarkRecord.to_tsv, freshRecord, BenchmarkRecord.init, orZero,
      if_neg (by norm_num : ¬((123456 : ℚ) / 10000 = 0)), hm4, hf4, ht4, h0,
      optCell, optListCell, List.map, to_tsv_str]
    rfl
  · simp only [BenchmarkRecord.to_tsv, freshRecord, BenchmarkRecord.init, orZero,
      if_neg (by norm_num : ¬((2 : ℚ) = 0)), hm2, hf2, ht2, h50, h15, h55, hneg1,
      optCell, optListCell, List.map, to_tsv_str]
    rfl

/-- C10: `to_tsv` computes `mean_load` as
`100.0 * cpu_seconds / running_time` with no zero guard, so it is
total only when `running_time ≠ 0`; a freshly constructed
`BenchmarkRecord` has `running_time = 0` (the default `None` is
coerced by `running_time or 0`) and its serialization raises
`ZeroDivisionError` (modelled as `none`) in either mode. -/
theorem C10_mean_load_div_by_zero :
    (∀ rt, freshRecord.to_tsv rt = none)
    ∧ freshRecord.running_time = 0
    ∧ (∀ (r : BenchmarkRecord) (rt : Bool), r.running_time ≠ 0 → (r.to_tsv rt).isSome = true) := by
  refine ⟨fun rt => ?_, rfl, fun r rt h => ?_⟩
  · simp [BenchmarkRecord.to_tsv, freshRecord, BenchmarkRecord.init, orZero]
  · simp [BenchmarkRecord.to_tsv, h]

/-- Witness for C10 at concrete records: the fresh record fails to
serialize, a record with nonzero running time serializes. -/
theorem C10_witness :
    freshRecord.to_tsv true = none
    ∧ (({ freshRecord with running_time := 1 } : BenchmarkRecord).to_tsv true).isSome = true :=
  ⟨C10_mean_load_div_by_zero.1 true,
   C10_mean_load_div_by_zero.2.2 { freshRecord with running_time := 1 } true
     (by norm_num [freshRecord, BenchmarkRecord.init])⟩

/-- Counterexample to C5: `start()` has no already-started check and
does not fail on a second call. After a first `start` the scheduler is
running (`stopped = false`), and a second `start` call completes
normally, running the full start sequence again — `work()` fires
synchronously once more, `times_called` becomes 2, `start_time` is
reset to the new instant and a fresh timer is scheduled (the previous
timer left pending) — instead of surfacing any error to the caller. -/
theorem C5_counterexample :
    (((initSched 30).start 0).1.stopped = false)
    ∧ (((initSched 30).start 0).1.start 7
        = ({ times_called := 2
             interval := 30
             stopped := false
             pendingDelay := some BENCHMARK_INTERVAL_SHORT
             start_time := some 7 },
           [SchedEvent.workCalled, SchedEvent.timerScheduled BENCHMARK_INTERVAL_SHORT])) := by
  constructor
  · rfl
  · simp only [SchedState.start, initSched, chooseDelay]
    norm_num

/-- C5 amended: `start()` performs no already-started check and never
fails: on any state — started or not — it unconditionally records the
new start instant, invokes `work()` synchronously, increments
`times_called`, clears `stopped` and schedules another timer; no
error is surfaced and the previously pending timer is simply
abandoned to its own schedule. -/
theorem C5_amended (s : SchedState) (now : ℚ) :
    s.start now
      = ({ s with
            start_time := some now
            times_called := s.times_called + 1
            stopped := false
            pendingDelay := some (chooseDelay (s.times_called + 1) s.interval) },
         [SchedEvent.workCalled,
          SchedEvent.timerScheduled (chooseDelay (s.times_called + 1) s.interval)]) := rfl

/-- C8: `start()` invokes the action once synchronously before any
deferred scheduling (the `workCalled` event precedes the single
`timerScheduled` event), every firing increments `times_called`
before re-scheduling, and the delay chosen for the next deferred
invocation is the full `interval` seconds when the incremented
`times_called` exceeds `interval` (the parameter reused as a
dimensionless ramp-up threshold) and the fixed constant 0.5 seconds
otherwise. -/
theorem C8_cadence (s : SchedState) (now : ℚ) :
    (s.start now).2
      = [SchedEvent.workCalled,
         SchedEvent.timerScheduled (chooseDelay (s.times_called + 1) s.interval)]
    ∧ (s.start now).1.times_called = s.times_called + 1
    ∧ s.action.2
      = [SchedEvent.workCalled,
         SchedEvent.timerScheduled (chooseDelay (s.times_called + 1) s.interval)]
    ∧ s.action.1.times_called = s.times_called + 1
    ∧ (∀ (n : Nat) (i : ℚ), chooseDelay n i = if (n : ℚ) > i then i else 1 / 2)
    ∧ BENCHMARK_INTERVAL_SHORT = 1 / 2 :=
  ⟨rfl, rfl, rfl, rfl, fun _ _ => rfl, rfl⟩

/-- Counterexample to C3: when the enclosed scope raises, `benchmarked`
does not cancel the sampler and does not finalize `running_time` — the
generator body has no `try/finally`, so the statements after
`yield result` are skipped when the exception propagates through the
generator. Concretely, with observation enabled, scope entered at time
0 and the exception escaping at time 10 before any tick ran, the
sampler is left uncancelled and `running_time` is still 0, not the
elapsed 10. -/
theorem C3_counterexample :
    (benchmarked_model false 0 10 [] freshRecord [] BodyOutcome.exc).2 = false
    ∧ (benchmarked_model false 0 10 [] freshRecord [] BodyOutcome.exc).1.running_time = 0
    ∧ (0 : ℚ) ≠ 10 - 0 := by
  refine ⟨rfl, ?_, by norm_num⟩
  simp [benchmarked_model, benchTimerInit, runTicks, freshRecord, BenchmarkRecord.init, orZero]

/-- C3 amended: with observation enabled, `benchmarked` cancels the
sampler and sets the final wall-clock `running_time` only on normal
completion of the scope; an escaping exception skips both (the record
keeps the last tick's state and the sampler is never cancelled). With
observation disabled (`pid=False`) no sampler exists and the record
is returned unmodified. -/
theorem C3_amended (s e : ℚ) (gpus : List Nat) (r0 : BenchmarkRecord) (ticks : List TickObs) :
    benchmarked_model false s e gpus r0 ticks BodyOutcome.normal
      = ({ runTicks s (benchTimerInit gpus r0) ticks with running_time := e - s }, true)
    ∧ benchmarked_model false s e gpus r0 ticks BodyOutcome.exc
      = (runTicks s (benchTimerInit gpus r0) ticks, false)
    ∧ benchmarked_model true s e gpus r0 ticks BodyOutcome.normal = (r0, false) :=
  ⟨rfl, rfl, rfl⟩

/-- If any enumerated process failed its query (`NoSuchProcess` from a
process that exited in flight, or any other `psutil.Error`), the
tick's scan yields no metrics list: the loop's exception lands in
`except psutil.Error: return`. -/
theorem aliveMetrics_eq_none_of_any {l : List ProcObs}
    (h : l.any (fun p => !p.isAlive) = true) : aliveMetrics l = none := by
  induction l with
  | nil => simp at h
  | cons p rest ih =>
    cases p with
    | alive m =>
      simp only [List.any_cons, ProcObs.isAlive, Bool.not_true, Bool.false_or] at h
      simp [aliveMetrics, ih h]
    | gone => rfl
    | err => rfl

/-- Counterexample to C1: a process that exits between enumeration and
its per-process query does not get skipped with the pass continuing —
the whole tick is abandoned. Tick 1 (time 5) sees one live process
with 1 MB RSS; tick 2 (time 9) enumerates a live process with 3 MB RSS
plus one that has exited (`NoSuchProcess` at query time). The claim
predicts tick 2's sums to reflect exactly the still-live processes
(`rss = 3`); the code leaves `rss = 1` from tick 1, because
`NoSuchProcess` is a `psutil.Error` and the enclosing
`except psutil.Error: return` discards the whole pass. -/
theorem C1_counterexample :
    (runTicks 0 freshRecord
        [⟨5, true, [ProcObs.alive ⟨0, 1048576, 0, 0, 0, some (0, 0)⟩], none⟩,
         ⟨9, true, [ProcObs.alive ⟨0, 3145728, 0, 0, 0, some (0, 0)⟩, ProcObs.gone], none⟩]).rss
      = some 1
    ∧ some (3 : ℚ) ≠ some (1 : ℚ) := by
  constructor
  · norm_num [runTicks, updateRecord, aliveMetrics, procStep, initAcc, applyGpu, orZero,
      pyTruthy, MBconv, freshRecord, BenchmarkRecord.init, max_def]
  · simp only [ne_eq, Option.some.injEq]
    norm_num

/-- C1 amended: if any process of the enumerated tree has exited
between enumeration and its per-process query, the entire aggregation
pass is abandoned, not continued: the raised `psutil.NoSuchProcess`
(a `psutil.Error`) is caught by the pass-level handler, no error is
surfaced, every field of the Record except `running_time` keeps the
previous successful tick's value (`running_time` was already set from
this tick's wall clock before the loop), and earlier and later ticks
are unaffected. -/
theorem C1_amended (start_time : ℚ) (r : BenchmarkRecord) (obs : TickObs)
    (h : obs.procs.any (fun p => !p.isAlive) = true) :
    updateRecord start_time r obs = { r with running_time := obs.this_time - start_time } := by
  unfold updateRecord
  rw [aliveMetrics_eq_none_of_any h]
  cases obs.enumOk <;> rfl

/-- Witness for C1 at a concrete input: one vanished process in the
enumerated tree abandons the tick, leaving only `running_time`
updated. -/
theorem C1_witness :
    updateRecord 0 freshRecord ⟨9, true, [ProcObs.gone], none⟩
      = { freshRecord with running_time := 9 - 0 } :=
  C1_amended 0 freshRecord ⟨9, true, [ProcObs.gone], none⟩ (by decide)

/-- Counterexample to C2: on a provider-level failure the Record is
not left exactly as after the previous successful tick —
`running_time` is mutated first. Tick 1 (time 5) succeeds, so
`running_time = 5`; tick 2 (time 9) fails while enumerating children
(`psutil.Error` not tied to one vanished process). The claim predicts
`running_time` still 5; the code sets it to 9 before the failure
(line 288 precedes the loop inside the `try`). -/
theorem C2_counterexample :
    (runTicks 0 freshRecord
        [⟨5, true, [ProcObs.alive ⟨0, 0, 0, 0, 0, some (0, 0)⟩], none⟩]).running_time = 5
    ∧ (runTicks 0 freshRecord
        [⟨5, true, [ProcObs.alive ⟨0, 0, 0, 0, 0, some (0, 0)⟩], none⟩,
         ⟨9, false, [], none⟩]).running_time = 9
    ∧ (9 : ℚ) ≠ 5 := by
  refine ⟨?_, ?_, by norm_num⟩ <;>
    norm_num [runTicks, updateRecord, aliveMetrics, procStep, initAcc, applyGpu, orZero,
      pyTruthy, MBconv, freshRecord, BenchmarkRecord.init, max_def]

/-- C2 amended: on a provider-level error during an aggregation pass,
every field of the Record except `running_time` is left exactly as
after the previous successful tick (including `prev_time` and
`cpu_seconds`), no error is surfaced, but `running_time` has already
been overwritten with this tick's `t - start_time` before the failure
was detected. -/
theorem C2_amended (start_time : ℚ) (r : BenchmarkRecord) (obs : TickObs)
    (h : obs.enumOk = false) :
    updateRecord start_time r obs = { r with running_time := obs.this_time - start_time } := by
  unfold updateRecord
  rw [h]

/-- Witness for C2 at a concrete input: a tick whose enumeration fails
leaves everything but `running_time` unchanged. -/
theorem C2_witness :
    updateRecord 0 freshRecord ⟨9, false, [], none⟩
      = { freshRecord with running_time := 9 - 0 } :=
  C2_amended 0 freshRecord ⟨9, false, [], none⟩ rfl

/-- One loop iteration's effect on `check_io`: it stays set unless this
process's `io_counters()` raised `NotImplementedError`, and once
cleared it stays cleared for the rest of the tick. -/
theorem procStep_check_io (t : ℚ) (p : Option ℚ) (acc : LoopAcc) (m : ProcMetrics) :
    (procStep t p acc m).check_io = (acc.check_io && !m.io.isNone) := by
  cases hp : pyTruthy p <;> cases hio : m.io <;> cases hacc : acc.check_io <;>
    simp [procStep, hp, hio, hacc]

/-- Across a tick's whole scan, `check_io` ends up cleared exactly when
some process of this tick signalled unsupported I/O accounting. -/
theorem foldl_procStep_check_io (t : ℚ) (p : Option ℚ) (ms : List ProcMetrics) (acc : LoopAcc) :
    (ms.foldl (procStep t p) acc).check_io
      = (acc.check_io && !(ms.any (fun m => m.io.isNone))) := by
  induction ms generalizing acc with
  | nil => simp
  | cons m rest ih =>
    rw [List.foldl_cons, ih, procStep_check_io]
    simp [Bool.and_assoc]

/-- Counterexample to C4: the unsupported state is not sticky across
ticks. Tick 1 (time 5): the only process signals unsupported I/O, so
`io_in`/`io_out` are null. Tick 2 (time 10): `check_io` is re-initial-
ized to `True` at the top of `_update_record`, the probe succeeds
(2 MB read, 1 MB written), and `io_in` becomes `2` — not null as the
claim requires for every subsequent tick. -/
theorem C4_counterexample :
    (runTicks 0 freshRecord [⟨5, true, [ProcObs.alive ⟨0, 0, 0, 0, 0, none⟩], none⟩]).io_in = none
    ∧ (runTicks 0 freshRecord
        [⟨5, true, [ProcObs.alive ⟨0, 0, 0, 0, 0, none⟩], none⟩,
         ⟨10, true, [ProcObs.alive ⟨0, 0, 0, 0, 0, some (2097152, 1048576)⟩], none⟩]).io_in
      = some 2
    ∧ some (2 : ℚ) ≠ (none : Option ℚ) := by
  refine ⟨?_, ?_, by simp⟩ <;>
    norm_num [runTicks, updateRecord, aliveMetrics, procStep, initAcc, applyGpu, orZero,
      pyTruthy, MBconv, freshRecord, BenchmarkRecord.init, max_def]

/-- C4 amended: `io_in`/`io_out` are null on exactly the ticks on which
some enumerated process signals "unsupported" — `check_io` is
re-initialized to `True` at the start of every `_update_record` call,
so the unsupported state is re-probed each tick rather than sticky,
and the fields become non-null again on a later tick whose probes all
succeed. (On a tick where the I/O provider signals unsupported, the
fields are null for that tick, as the claim says for tick `k`.) -/
theorem C4_amended (start_time : ℚ) (r : BenchmarkRecord) (obs : TickObs)
    (ms : List ProcMetrics) (h1 : obs.enumOk = true) (h2 : aliveMetrics obs.procs = some ms) :
    (((updateRecord start_time r obs).io_in = none ∧ (updateRecord start_time r obs).io_out = none)
      ↔ ms.any (fun m => m.io.isNone) = true) := by
  unfold updateRecord
  rw [h1, h2]
  simp only [foldl_procStep_check_io, initAcc, Bool.true_and]
  cases ha : ms.any (fun m => m.io.isNone) <;> simp [ha]

/-- Witness for C4 at a concrete input: a tick whose only process
signals unsupported I/O yields null `io_in`/`io_out` on that tick. -/
theorem C4_witness :
    (updateRecord 0 freshRecord ⟨5, true, [ProcObs.alive ⟨0, 0, 0, 0, 0, none⟩], none⟩).io_in = none
    ∧ (updateRecord 0 freshRecord
        ⟨5, true, [ProcObs.alive ⟨0, 0, 0, 0, 0, none⟩], none⟩).io_out = none :=
  (C4_amended 0 freshRecord ⟨5, true, [ProcObs.alive ⟨0, 0, 0, 0, 0, none⟩], none⟩
      [⟨0, 0, 0, 0, 0, none⟩] rfl rfl).mpr (by decide)

/-- One loop iteration's CPU-seconds effect: the contribution
`cpu_percent / 100 * (this_time - prev_time)` is added only when
`prev_time` is truthy (set by a previous successful tick). -/
theorem procStep_cpu (t : ℚ) (p : Option ℚ) (acc : LoopAcc) (m : ProcMetrics) :
    (procStep t p acc m).cpu_seconds
      = acc.cpu_seconds + (if pyTruthy p then m.cpu_percent / 100 * (t - orZero p) else 0) := by
  cases hp : pyTruthy p <;> cases hio : m.io <;> cases hacc : acc.check_io <;>
    simp [procStep, hp, hio, hacc]

/-- Across a tick's whole scan, the accumulated CPU-seconds is the sum
of the per-process contributions (zero before the first baseline). -/
theorem foldl_procStep_cpu (t : ℚ) (p : Option ℚ) (ms : List ProcMetrics) (acc : LoopAcc) :
    (ms.foldl (procStep t p) acc).cpu_seconds
      = acc.cpu_seconds
        + (if pyTruthy p then (ms.map (fun m => m.cpu_percent / 100 * (t - orZero p))).sum
           else 0) := by
  induction ms generalizing acc with
  | nil => simp
  | cons m rest ih =>
    rw [List.foldl_cons, ih, procStep_cpu]
    cases hp : pyTruthy p <;> simp [hp, add_assoc]

/-- `_update_record` adds exactly `tickCpuContribution` to
`cpu_seconds` (in particular it never resets it). -/
theorem updateRecord_cpu_seconds (s : ℚ) (r : BenchmarkRecord) (obs : TickObs) :
    (updateRecord s r obs).cpu_seconds = r.cpu_seconds + tickCpuContribution r.prev_time obs := by
  unfold updateRecord tickCpuContribution
  cases henum : obs.enumOk <;> cases hm : aliveMetrics obs.procs
  · simp
  · simp
  · simp
  · cases hg : obs.gpuVals <;> simp [applyGpu, foldl_procStep_cpu, initAcc]

/-- Before any successful tick has set `prev_time`, a tick's
CPU-seconds contribution is zero. -/
theorem tickCpuContribution_of_prev_none (obs : TickObs) :
    tickCpuContribution none obs = 0 := by
  unfold tickCpuContribution
  cases henum : obs.enumOk <;> cases hm : aliveMetrics obs.procs <;> simp [pyTruthy]

/-- A tick's CPU-seconds contribution is nonnegative whenever the
provider reports nonnegative CPU percents and the wall clock has not
gone backwards since `prev_time` was recorded. -/
theorem tickCpuContribution_nonneg (prevT : Option ℚ) (obs : TickObs)
    (hcpu : ∀ ms, aliveMetrics obs.procs = some ms → ∀ m ∈ ms, 0 ≤ m.cpu_percent)
    (hpt : ∀ v, prevT = some v → v ≤ obs.this_time) :
    0 ≤ tickCpuContribution prevT obs := by
  unfold tickCpuContribution
  cases henum : obs.enumOk <;> cases hm : aliveMetrics obs.procs
  · simp
  · simp
  · simp
  · rename_i ms
    cases hp : pyTruthy prevT
    · simp
    · simp only [if_true]
      apply List.sum_nonneg
      intro x hx
      simp only [List.mem_map] at hx
      obtain ⟨m, hmem, rfl⟩ := hx
      have h1 : 0 ≤ m.cpu_percent := hcpu ms hm m hmem
      have h2 : orZero prevT ≤ obs.this_time := by
        cases prevT with
        | none => simp [pyTruthy] at hp
        | some v =>
          have hv : v ≠ 0 := by
            intro h0
            rw [h0] at hp
            simp [pyTruthy] at hp
          have := hpt v rfl
          simpa [orZero, hv] using this
      have h3 : 0 ≤ obs.this_time - orZero prevT := sub_nonneg.mpr h2
      exact mul_nonneg (div_nonneg h1 (by norm_num)) h3

/-- Along a whole trace, `cpu_seconds` is the starting value plus the
sum of all per-tick contributions. -/
theorem runTicks_cpu_seconds (s : ℚ) (r : BenchmarkRecord) (ticks : List TickObs) :
    (runTicks s r ticks).cpu_seconds = r.cpu_seconds + (cpuContribs s r ticks).sum := by
  induction ticks generalizing r with
  | nil => simp [runTicks, cpuContribs]
  | cons t ts ih =>
    show (List.foldl (updateRecord s) r (t :: ts)).cpu_seconds = _
    rw [List.foldl_cons]
    have hstep : (List.foldl (updateRecord s) (updateRecord s r t) ts).cpu_seconds
        = (updateRecord s r t).cpu_seconds + (cpuContribs s (updateRecord s r t) ts).sum := ih _
    rw [hstep, updateRecord_cpu_seconds]
    simp [cpuContribs, add_assoc]

/-- C6: `cpu_seconds` never decreases across ticks (given nonnegative
provider CPU percents and a non-regressing wall clock); on a tick
taken before `prev_time` has ever been set the contribution is zero;
each tick adds the sum over the scanned processes of
`percent/100 * (t - prev_time)`; and `cpu_seconds` is cumulative —
never reset — equalling the starting value plus the sum of all
per-tick contributions along any trace. -/
theorem C6_cpu_seconds (s : ℚ) (r : BenchmarkRecord) (obs : TickObs) :
    (updateRecord s r obs).cpu_seconds = r.cpu_seconds + tickCpuContribution r.prev_time obs
    ∧ (r.prev_time = none → (updateRecord s r obs).cpu_seconds = r.cpu_seconds)
    ∧ ((∀ ms, aliveMetrics obs.procs = some ms → ∀ m ∈ ms, 0 ≤ m.cpu_percent)
        → (∀ v, r.prev_time = some v → v ≤ obs.this_time)
        → r.cpu_seconds ≤ (updateRecord s r obs).cpu_seconds)
    ∧ (∀ ticks, (runTicks s r ticks).cpu_seconds = r.cpu_seconds + (cpuContribs s r ticks).sum) := by
  refine ⟨updateRecord_cpu_seconds s r obs, fun h => ?_, fun hcpu hpt => ?_,
    fun ticks => runTicks_cpu_seconds s r ticks⟩
  · rw [updateRecord_cpu_seconds, h, tickCpuContribution_of_prev_none, add_zero]
  · rw [updateRecord_cpu_seconds]
    exact le_add_of_nonneg_right (tickCpuContribution_nonneg r.prev_time obs hcpu hpt)

/-- Witness for C6 at a concrete input: a first tick (no `prev_time`
baseline) over one process at 50% CPU contributes zero, and
`cpu_seconds` does not decrease. -/
theorem C6_witness :
    (updateRecord 0 freshRecord
        ⟨5, true, [ProcObs.alive ⟨50, 0, 0, 0, 0, some (0, 0)⟩], none⟩).cpu_seconds
      = freshRecord.cpu_seconds
    ∧ freshRecord.cpu_seconds
      ≤ (updateRecord 0 freshRecord
          ⟨5, true, [ProcObs.alive ⟨50, 0, 0, 0, 0, some (0, 0)⟩], none⟩).cpu_seconds := by
  constructor
  · exact (C6_cpu_seconds 0 freshRecord _).2.1 rfl
  · refine (C6_cpu_seconds 0 freshRecord _).2.2.1 ?_ ?_
    · intro ms hms m hmem
      simp only [aliveMetrics, Option.map] at hms
      cases hms
      simp only [List.mem_singleton] at hmem
      subst hmem
      norm_num
    · intro v hv
      simp [freshRecord, BenchmarkRecord.init] at hv

/-- The GPU update loop preserves pointwise domination: each updated
instantaneous entry is the fresh reading, each updated maximum is at
least that reading, and untouched tails keep their relation. -/
theorem zip_updGpu_le (read : GpuObs → ℚ) (vals : List GpuObs) (lc lm : List ℚ)
    (h : ∀ p ∈ lc.zip lm, p.1 ≤ p.2) :
    ∀ p ∈ (updGpuCur read vals lc).zip (updGpuMax read vals lm), p.1 ≤ p.2 := by
  induction vals generalizing lc lm with
  | nil => simpa [updGpuCur, updGpuMax] using h
  | cons v vs ih =>
    cases lc with
    | nil => simp [updGpuCur]
    | cons c cs =>
      cases lm with
      | nil => simp [updGpuMax, List.zip_nil_right]
      | cons m ms =>
        simp only [updGpuCur, updGpuMax, List.zip_cons_cons, List.mem_cons]
        rintro p (rfl | hp)
        · exact le_max_right _ _
        · exact ih cs ms (fun q hq => h q (List.mem_cons_of_mem _ hq)) p hp

/-- Unpack a `gpuPairLE` fact to the raw lists the GPU block reads
(`None` degrades to the empty list, making the zip empty). -/
theorem gpuPairLE_getD (cur mx : Option (List ℚ)) (h : gpuPairLE cur mx) :
    ∀ p ∈ (cur.getD []).zip (mx.getD []), p.1 ≤ p.2 := by
  cases cur with
  | none => simp
  | some lc =>
    cases mx with
    | none => simp [List.zip_nil_right]
    | some lm => exact h lc lm rfl rfl

/-- Zipped equal-constant lists dominate pointwise (used for the
`[-1] * len(gpus)` sentinel initialization). -/
theorem zip_replicate_le (n k : Nat) (x : ℚ) :
    ∀ p ∈ (List.replicate n x).zip (List.replicate k x), p.1 ≤ p.2 := by
  intro p hp
  obtain ⟨a, b⟩ := p
  obtain ⟨h1, h2⟩ := List.of_mem_zip hp
  rw [List.eq_of_mem_replicate h1, List.eq_of_mem_replicate h2]

/-- `a ≤ max(a or 0, v)`: the Python running-max update never drops
below the previous maximum. -/
theorem le_max_orZero (a v : ℚ) : a ≤ max (orZero (some a)) v := by
  by_cases h : a = 0
  · subst h
    simp [orZero]
  · simp [orZero, h]

/-- A tick on which the scan failed (enumeration error or any process
raising) leaves every field but `running_time` unchanged. -/
theorem updateRecord_fail (s : ℚ) (r : BenchmarkRecord) (obs : TickObs)
    (h : ¬(obs.enumOk = true ∧ ∃ ms, aliveMetrics obs.procs = some ms)) :
    updateRecord s r obs = { r with running_time := obs.this_time - s } := by
  unfold updateRecord
  cases henum : obs.enumOk <;> cases hm : aliveMetrics obs.procs
  · rfl
  · rfl
  · rfl
  · rename_i ms
    exact absurd ⟨henum, ms, hm⟩ h

/-- On a successful tick, each memory running maximum is updated to
`max(max_X or 0, summed_X_in_MB)`. -/
theorem updateRecord_max_eq (s : ℚ) (r : BenchmarkRecord) (obs : TickObs) (ms : List ProcMetrics)
    (h1 : obs.enumOk = true) (h2 : aliveMetrics obs.procs = some ms) :
    (updateRecord s r obs).max_rss
      = some (max (orZero r.max_rss)
          ((ms.foldl (procStep obs.this_time r.prev_time) initAcc).rss / MBconv))
    ∧ (updateRecord s r obs).max_vms
      = some (max (orZero r.max_vms)
          ((ms.foldl (procStep obs.this_time r.prev_time) initAcc).vms / MBconv))
    ∧ (updateRecord s r obs).max_uss
      = some (max (orZero r.max_uss)
          ((ms.foldl (procStep obs.this_time r.prev_time) initAcc).uss / MBconv))
    ∧ (updateRecord s r obs).max_pss
      = some (max (orZero r.max_pss)
          ((ms.foldl (procStep obs.this_time r.prev_time) initAcc).pss / MBconv)) := by
  unfold updateRecord
  rw [h1, h2]
  cases hg : obs.gpuVals <;> simp [applyGpu]

/-- One tick preserves the running-max invariant. -/
theorem updateRecord_maxInvariant (s : ℚ) (r : BenchmarkRecord) (obs : TickObs)
    (h : maxInvariant r) : maxInvariant (updateRecord s r obs) := by
  obtain ⟨h1, h2, h3, h4, h5, h6⟩ := h
  unfold updateRecord
  cases henum : obs.enumOk <;> cases hm : aliveMetrics obs.procs
  · exact ⟨h1, h2, h3, h4, h5, h6⟩
  · exact ⟨h1, h2, h3, h4, h5, h6⟩
  · exact ⟨h1, h2, h3, h4, h5, h6⟩
  · cases hg : obs.gpuVals with
    | none =>
      refine ⟨?_, ?_, ?_, ?_, h5, h6⟩ <;>
        · intro a b ha hb
          cases ha
          cases hb
          exact le_max_right _ _
    | some vals =>
      refine ⟨?_, ?_, ?_, ?_, ?_, ?_⟩
      · intro a b ha hb
        cases ha
        cases hb
        exact le_max_right _ _
      · intro a b ha hb
        cases ha
        cases hb
        exact le_max_right _ _
      · intro a b ha hb
        cases ha
        cases hb
        exact le_max_right _ _
      · intro a b ha hb
        cases ha
        cases hb
        exact le_max_right _ _
      · intro lc lm hlc hlm
        cases hlc
        cases hlm
        exact zip_updGpu_le _ vals _ _ (gpuPairLE_getD _ _ h5)
      · intro lc lm hlc hlm
        cases hlc
        cases hlm
        exact zip_updGpu_le _ vals _ _ (gpuPairLE_getD _ _ h6)

/-- The record as prepared by `BenchmarkTimer.__init__` satisfies the
running-max invariant: the memory pairs are all unset and the GPU
lists are equal `-1` sentinels. -/
theorem benchTimerInit_maxInvariant (gpus : List Nat) :
    maxInvariant (benchTimerInit gpus freshRecord) := by
  unfold benchTimerInit
  by_cases hg : gpus.isEmpty <;> simp only [hg, if_true, if_false]
  · refine ⟨?_, ?_, ?_, ?_, ?_, ?_⟩
    · intro a b ha hb
      simp [freshRecord, BenchmarkRecord.init] at ha
    · intro a b ha hb
      simp [freshRecord, BenchmarkRecord.init] at ha
    · intro a b ha hb
      simp [freshRecord, BenchmarkRecord.init] at ha
    · intro a b ha hb
      simp [freshRecord, BenchmarkRecord.init] at ha
    · intro lc lm hlc hlm
      simp [freshRecord, BenchmarkRecord.init] at hlc
    · intro lc lm hlc hlm
      simp [freshRecord, BenchmarkRecord.init] at hlc
  · refine ⟨?_, ?_, ?_, ?_, ?_, ?_⟩
    · intro a b ha hb
      simp [freshRecord, BenchmarkRecord.init] at ha
    · intro a b ha hb
      simp [freshRecord, BenchmarkRecord.init] at ha
    · intro a b ha hb
      simp [freshRecord, BenchmarkRecord.init] at ha
    · intro a b ha hb
      simp [freshRecord, BenchmarkRecord.init] at ha
    · intro lc lm hlc hlm
      cases hlc
      cases hlm
      exact zip_replicate_le _ _ _
    · intro lc lm hlc hlm
      cases hlc
      cases hlm
      exact zip_replicate_le _ _ _

/-- Any trace of ticks preserves the running-max invariant. -/
theorem runTicks_maxInvariant (s : ℚ) (r : BenchmarkRecord) (ticks : List TickObs)
    (h : maxInvariant r) : maxInvariant (runTicks s r ticks) := by
  induction ticks generalizing r with
  | nil => exact h
  | cons t ts ih => exact ih _ (updateRecord_maxInvariant s r t h)

/-- C7: after every tick of any trace from an initialized record, each
of RSS, VMS, USS, PSS and each monitored GPU's load and memory
satisfies `max_X ≥ X` whenever both are set (the invariant is
established at initialization and preserved by every tick); on a
successful tick each memory `max_X` is updated to
`max(max_X or 0, X)`; and each running maximum is non-decreasing
across ticks. -/
theorem C7_running_max (s : ℚ) (r : BenchmarkRecord) (obs : TickObs) (gpus : List Nat)
    (ticks : List TickObs) :
    maxInvariant (runTicks s (benchTimerInit gpus freshRecord) ticks)
    ∧ (maxInvariant r → maxInvariant (updateRecord s r obs))
    ∧ (∀ ms, obs.enumOk = true → aliveMetrics obs.procs = some ms →
        (updateRecord s r obs).max_rss
          = some (max (orZero r.max_rss)
              ((ms.foldl (procStep obs.this_time r.prev_time) initAcc).rss / MBconv)))
    ∧ (∀ a, r.max_rss = some a → ∃ b, (updateRecord s r obs).max_rss = some b ∧ a ≤ b)
    ∧ (∀ a, r.max_vms = some a → ∃ b, (updateRecord s r obs).max_vms = some b ∧ a ≤ b)
    ∧ (∀ a, r.max_uss = some a → ∃ b, (updateRecord s r obs).max_uss = some b ∧ a ≤ b)
    ∧ (∀ a, r.max_pss = some a → ∃ b, (updateRecord s r obs).max_pss = some b ∧ a ≤ b) := by
  refine ⟨runTicks_maxInvariant s _ ticks (benchTimerInit_maxInvariant gpus),
    updateRecord_maxInvariant s r obs, fun ms h1 h2 => (updateRecord_max_eq s r obs ms h1 h2).1,
    fun a ha => ?_, fun a ha => ?_, fun a ha => ?_, fun a ha => ?_⟩
  all_goals
    by_cases hsucc : obs.enumOk = true ∧ ∃ ms, aliveMetrics obs.procs = some ms
  · obtain ⟨h1, ms, h2⟩ := hsucc
    refine ⟨_, (updateRecord_max_eq s r obs ms h1 h2).1, ?_⟩
    rw [ha]
    exact le_max_orZero a _
  · rw [updateRecord_fail s r obs hsucc]
    exact ⟨a, ha, le_rfl⟩
  · obtain ⟨h1, ms, h2⟩ := hsucc
    refine ⟨_, (updateRecord_max_eq s r obs ms h1 h2).2.1, ?_⟩
    rw [ha]
    exact le_max_orZero a _
  · rw [updateRecord_fail s r obs hsucc]
    exact ⟨a, ha, le_rfl⟩
  · obtain ⟨h1, ms, h2⟩ := hsucc
    refine ⟨_, (updateRecord_max_eq s r obs ms h1 h2).2.2.1, ?_⟩
    rw [ha]
    exact le_max_orZero a _
  · rw [updateRecord_fail s r obs hsucc]
    exact ⟨a, ha, le_rfl⟩
  · obtain ⟨h1, ms, h2⟩ := hsucc
    refine ⟨_, (updateRecord_max_eq s r obs ms h1 h2).2.2.2, ?_⟩
    rw [ha]
    exact le_max_orZero a _
  · rw [updateRecord_fail s r obs hsucc]
    exact ⟨a, ha, le_rfl⟩

/-- Witness for C7 at concrete inputs: the invariant holds after a
concrete one-process tick from an initialized record with one GPU,
and a set running maximum never decreases across a concrete tick. -/
theorem C7_witness :
    maxInvariant (runTicks 0 (benchTimerInit [0] freshRecord)
      [⟨5, true, [ProcObs.alive ⟨0, 1048576, 0, 0, 0, some (0, 0)⟩], some [⟨55 / 100, 2048⟩]⟩])
    ∧ ∃ b, (updateRecord 0 ({ freshRecord with max_rss := some 5 } : BenchmarkRecord)
        ⟨9, true, [ProcObs.alive ⟨0, 0, 0, 0, 0, some (0, 0)⟩], none⟩).max_rss = some b
        ∧ (5 : ℚ) ≤ b := by
  constructor
  · exact (C7_running_max 0 freshRecord ⟨0, true, [], none⟩ [0]
      [⟨5, true, [ProcObs.alive ⟨0, 1048576, 0, 0, 0, some (0, 0)⟩], some [⟨55 / 100, 2048⟩]⟩]).1
  · exact (C7_running_max 0 { freshRecord with max_rss := some 5 }
      ⟨9, true, [ProcObs.alive ⟨0, 0, 0, 0, 0, some (0, 0)⟩], none⟩ [] []).2.2.2.1 5 rfl
